import Mathlib

/-!
Verification of the sensor-recommendation scoring engine (`src/bc_csv7.py`).

The Python source is shallowly embedded: Python strings become Lean `String`
(manipulated as `List Char`), Python floats become `ℚ` (all the constants in
the source are decimal literals, so the arithmetic is modelled exactly),
Python `None` becomes `Option`, and `pandas`/`numpy` array operations become
`List` operations.  External collaborators (the sentence-transformer embedding
model and `difflib.get_close_matches`) are modelled as parameters.
-/

namespace SensorRec

/-! ## Punctuation characters handled by the module-list parser, named by
code point: `{` (123), `}` (125), `"` (34), `'` (39). -/

def lbrace : Char := Char.ofNat 123
def rbrace : Char := Char.ofNat 125
def dquote : Char := Char.ofNat 34
def squote : Char := Char.ofNat 39

/-! ## Python string primitives -/

/-- Python `needle in hay` on strings: substring containment. -/
def containsSub (hay needle : List Char) : Bool :=
  match hay with
  | [] => needle.isEmpty
  | _ :: t => needle.isPrefixOf hay || containsSub t needle

/-- Python `str.strip(chars)` / `str.strip()`: drop characters satisfying `p`
from both ends. -/
def pyStrip (p : Char → Bool) (l : List Char) : List Char :=
  ((l.dropWhile p).reverse.dropWhile p).reverse

/-- Python `str.split(sep)` for a one-character separator: splits at every
occurrence, keeping empty pieces; `"".split(sep) == [""]`. -/
def pySplit (sep : Char) : List Char → List (List Char)
  | [] => [[]]
  | c :: cs =>
    match pySplit sep cs with
    | [] => [[]]
    | t :: ts => if c = sep then [] :: t :: ts else (c :: t) :: ts

/-- Python `str.replace(old, new)` with `old` a single character and `new`
the empty string (the only uses in the source are `replace('"','')` and
`replace("'","")`). -/
def pyEraseChar (c : Char) (l : List Char) : List Char :=
  l.filter (fun x => x ≠ c)

/-- Python `str.lower()` (adequate for the ASCII letters appearing in the
source's keyword tables; CJK characters are fixed points). -/
def lowerL (l : List Char) : List Char := l.map Char.toLower

/-- Python `str.upper()`. -/
def upperL (l : List Char) : List Char := l.map Char.toUpper

def lowerS (s : String) : List Char := lowerL s.toList

/-! ## Python `re.findall(r'-?\d+', s)` and `int` -/

/-- The numeric tokens produced by `re.findall(r'-?\d+', s)`: maximal digit
runs, optionally preceded by a minus sign, scanned left to right without
overlap. -/
def findInts : List Char → List (List Char)
  | [] => []
  | c :: cs =>
    if c.isDigit then
      (c :: cs.takeWhile Char.isDigit) :: findInts (cs.dropWhile Char.isDigit)
    else if c = '-' then
      match cs with
      | [] => []
      | d :: ds =>
        if d.isDigit then
          ('-' :: d :: ds.takeWhile Char.isDigit) :: findInts (ds.dropWhile Char.isDigit)
        else findInts (d :: ds)
    else findInts cs
  termination_by l => l.length
  decreasing_by
  · have hd : ∀ (x : List Char), (x.dropWhile Char.isDigit).length ≤ x.length := fun x => by
      induction x with
      | nil => simp [List.dropWhile]
      | cons a t ih =>
        by_cases h : Char.isDigit a
        · simp only [List.dropWhile, h]; exact Nat.le_succ_of_le ih
        · simp [List.dropWhile, h]
    exact Nat.lt_succ_of_le (hd _)
  · have hd : ∀ (x : List Char), (x.dropWhile Char.isDigit).length ≤ x.length := fun x => by
      induction x with
      | nil => simp [List.dropWhile]
      | cons a t ih =>
        by_cases h : Char.isDigit a
        · simp only [List.dropWhile, h]; exact Nat.le_succ_of_le ih
        · simp [List.dropWhile, h]
    exact Nat.lt_succ_of_le (Nat.le_succ_of_le (hd _))
  · exact Nat.lt_succ_of_le (Nat.le_refl _)
  · exact Nat.lt_succ_of_le (Nat.le_refl _)

def digitsToNat (ds : List Char) : ℕ :=
  ds.foldl (fun a c => 10 * a + (c.toNat - ('0' : Char).toNat)) 0

/-- Python `int()` applied to a token matched by `-?\d+`. -/
def tokToInt : List Char → Int
  | '-' :: ds => -(digitsToNat ds : Int)
  | ds => (digitsToNat ds : Int)

/-! ## A regular-expression engine for the subset of Python `re` used by the
source: literal characters, `.` (within `.*`), concatenation, alternation
groups `(a|b|c)` and optional groups `(...)?`.  Matching is by Brzozowski
derivatives. -/

inductive RE where
  | emp : RE
  | eps : RE
  | dot : RE
  | ch (c : Char) : RE
  | cat (a b : RE) : RE
  | alt (a b : RE) : RE
  | star (a : RE) : RE
deriving DecidableEq, Repr

def RE.nullable : RE → Bool
  | .emp => false
  | .eps => true
  | .dot => false
  | .ch _ => false
  | .cat a b => a.nullable && b.nullable
  | .alt a b => a.nullable || b.nullable
  | .star _ => true

def RE.deriv : RE → Char → RE
  | .emp, _ => .emp
  | .eps, _ => .emp
  | .dot, _ => .eps
  | .ch c, x => if x = c then .eps else .emp
  | .cat a b, x =>
    if a.nullable then .alt (.cat (a.deriv x) b) (b.deriv x)
    else .cat (a.deriv x) b
  | .alt a b, x => .alt (a.deriv x) (b.deriv x)
  | .star a, x => .cat (a.deriv x) (.star a)

/-- Whole-string match. -/
def RE.full (r : RE) : List Char → Bool
  | [] => r.nullable
  | c :: cs => (r.deriv c).full cs

/-- Python `re.search`: unanchored match anywhere in the string. -/
def RE.search (r : RE) (l : List Char) : Bool :=
  RE.full (.cat (.star .dot) (.cat r (.star .dot))) l

/-- Literal string pattern. -/
def RE.lit (s : String) : RE :=
  s.toList.foldr (fun c acc => RE.cat (RE.ch c) acc) RE.eps

/-- Two literals joined by `.*`, i.e. the Python pattern `a.*b`. -/
def RE.gap (a b : String) : RE := .cat (.lit a) (.cat (.star .dot) (.lit b))

/-- Three literals joined by `.*`, i.e. the Python pattern `a.*b.*c`. -/
def RE.gap3 (a b c : String) : RE :=
  .cat (.lit a) (.cat (.star .dot) (.cat (.lit b) (.cat (.star .dot) (.lit c))))

/-- An alternation group of three literals, `(a|b|c)`. -/
def RE.alt3 (a b c : String) : RE := .alt (.lit a) (.alt (.lit b) (.lit c))

/-- An optional regex, `r?`. -/
def RE.opt (r : RE) : RE := .alt r .eps

/-- `re.search(pattern, user_input, re.IGNORECASE)`: the source matches the
raw query case-insensitively; modelled by lower-casing the input (all
patterns below are written with lower-case literals). -/
def searchCI (r : RE) (input : String) : Bool := r.search (lowerS input)

/-! ## Intent extractor (`analyze_user_intent`) -/

/-- `direct_needs_patterns` from `analyze_user_intent` (label, regex list). -/
def direct_needs_patterns : List (String × List RE) :=
  [("熱顯像", [.gap "紅外線" "熱顯像", .gap "熱顯像" "模組", .lit "熱顯像", .lit "熱像儀",
      .gap "體溫" "感測", .lit "溫度異常", .gap "紅外線" "影像"]),
   ("毫米波雷達", [.gap "毫米波" "人流", .gap "毫米波" "模組", .gap "人流" "計算",
      .gap "人員" "追蹤", .gap "動線" "監控", .gap "人體" "偵測", .lit "毫米波雷達"]),
   ("氣體感測", [.gap "氣體" "感測", .gap "氣體" "偵測", .gap "氣體" "檢測",
      .gap "co2" "感測", .gap "co₂" "感測", .gap "voc" "感測", .gap "空氣品質" "感測",
      .gap "臭氧" "感測", .gap "一氧化碳" "感測", .gap "氨氣" "感測", .gap "可燃氣體" "感測"]),
   ("二氧化碳氣體感測", [.gap "二氧化碳" "感測", .gap "co2" "感測", .lit "co2",
      .lit "二氧化碳", .gap "co₂" "濃度", .lit "co2濃度", .gap "co2" "檢測",
      .cat (.lit "co₂") (.alt3 "感測器" "模組" "設備")]),
   ("溫濕度", [.gap "溫濕度" "感測", .gap3 "溫度" "濕度" "監控", .lit "溫濕度",
      .gap "環境" "溫濕度", .gap "溫度" "感測", .gap "濕度" "感測", .gap "室內" "溫度"]),
   ("環境光感測", [.gap "光照" "感測", .gap "照度" "偵測", .gap "亮度" "監控",
      .gap "環境光" "感測"]),
   ("傾斜/振動", [.gap "傾斜" "偵測", .gap "振動" "感測", .gap "角度" "感測",
      .gap "晃動" "感測", .gap "地震" "預警", .gap "結構" "監控",
      .cat (.lit "傾斜") (.cat (.star .dot) (.opt (.alt3 "感測器" "模組" "設備")))]),
   ("超音波風速風向", [.gap "風速" "感測", .gap "風向" "感測", .gap "風力" "偵測",
      .lit "風速風向", .gap "氣象" "監控", .gap "超音波" "風速"])]

/-- `environmental_context_patterns` (label, regex list, derived requirement). -/
def environmental_context_patterns : List (String × List RE × String) :=
  [("低溫環境", ([.gap "低溫" "環境", .gap "冷藏" "倉庫", .gap "冷凍" "環境",
      .lit "極低溫"], "低溫環境適用")),
   ("高溫環境", ([.gap "高溫" "環境", .lit "極高溫"], "高溫環境適用")),
   ("高濕環境", ([.gap "高濕" "環境", .gap "潮濕" "環境", .gap "濕度" "較高"], "抗濕環境")),
   ("工業環境", ([.gap "工廠" "環境", .gap "工業" "現場", .gap "生產" "環境"], "工業級耐用性")),
   ("室內環境", ([.gap "室內" "環境", .gap "建築" "內部", .gap "密閉" "空間"], "室內部署適用")),
   ("戶外環境", ([.gap "戶外" "環境", .gap "野外" "應用", .gap "室外" "監控"], "戶外防護等級"))]

/-- `technical_specs_patterns` (label, regex list, derived spec string);
the `AI` pattern is written lower-case because matching is `re.IGNORECASE`. -/
def technical_specs_patterns : List (String × List RE × String) :=
  [("AI功能", ([.lit "ai", .lit "人工智慧", .lit "機器學習", .lit "行為辨識",
      .lit "智能分析"], "AI擴充相容性")),
   ("即時監控", ([.lit "即時", .lit "實時", .lit "連續監測", .lit "持續監控"], "連續監控能力")),
   ("無線傳輸", ([.lit "無線", .lit "wifi", .lit "藍牙", .lit "zigbee", .lit "lora"],
      "無線通訊功能")),
   ("低功耗", ([.lit "低功耗", .lit "省電", .lit "電池供電", .lit "節能"], "低功耗設計")),
   ("高精度", ([.lit "高精度", .lit "精確", .lit "準確度", .lit "精密"], "高精度測量"))]

/-- `application_domain_patterns`. -/
def application_domain_patterns : List (String × List RE) :=
  [("智慧農業", [.lit "農業", .lit "溫室", .lit "種植", .lit "農作物", .lit "灌溉"]),
   ("工業監控", [.lit "工廠", .lit "生產線", .lit "機械", .lit "設備監控", .lit "預測維護"]),
   ("建築安全", [.lit "建築", .lit "結構", .lit "安全監控", .lit "火災預警", .lit "安防"]),
   ("環境監測", [.lit "環境", .lit "氣候", .lit "空氣品質", .lit "污染監測", .lit "氣象"]),
   ("智慧城市", [.lit "城市", .lit "交通", .lit "公共設施", .lit "智慧路燈", .lit "人流統計"])]

/-- The `comprehensive_analysis` dictionary built by `analyze_user_intent`.
The fields `primary_application`, `priority_features`, `deployment_context`
and `performance_requirements` are initialised by the source but never
written to, so they always hold their initial empty values. -/
structure IntentResult where
  direct_sensor_needs : List String
  environmental_context : List String
  exclude_keywords : List String
  primary_application : Option String
  environment_needs : List String
  technical_specs : List String
  priority_features : List String
  application_domain : Option String
  deployment_context : List String
  performance_requirements : List String
deriving DecidableEq, Repr

/-- Step 1 of `analyze_user_intent`: the labels of `direct_needs_patterns`
for which some pattern matches. -/
def directNeedsOf (user_input : String) : List String :=
  (direct_needs_patterns.filter (fun p => p.2.any (fun r => searchCI r user_input))).map
    (fun p => p.1)

/-- Step 2 of `analyze_user_intent`: matched environmental-context entries. -/
def envHitsOf (user_input : String) : List (String × List RE × String) :=
  environmental_context_patterns.filter (fun p => p.2.1.any (fun r => searchCI r user_input))

def envCtxOf (user_input : String) : List String :=
  (envHitsOf user_input).map (fun p => p.1)

/-- The exclusion-derivation condition at the end of `analyze_user_intent`. -/
def exclCond (user_input : String) : Bool :=
  (["低溫環境", "高濕環境", "高溫環境"].any
    (fun ctx => (envCtxOf user_input).contains ctx))
    && !((directNeedsOf user_input).contains "溫濕度")

/-- `analyze_user_intent(user_input)`: applies the five pattern tables
(unanchored, case-insensitive search), then derives the exclusion list. -/
def analyze_user_intent (user_input : String) : IntentResult :=
  { direct_sensor_needs := directNeedsOf user_input
    environmental_context := envCtxOf user_input
    exclude_keywords := if exclCond user_input then ["溫濕度"] else []
    primary_application := none
    environment_needs := (envHitsOf user_input).map (fun p => p.2.2)
    technical_specs :=
      (technical_specs_patterns.filter
        (fun p => p.2.1.any (fun r => searchCI r user_input))).map (fun p => p.2.2)
    priority_features := []
    application_domain :=
      (application_domain_patterns.find?
        (fun p => p.2.any (fun r => searchCI r user_input))).map (fun p => p.1)
    deployment_context := []
    performance_requirements := [] }

/-! ## Catalog data model

One row of the loaded DataFrame, restricted to the fields the scoring
functions read.  `Option` fields model `pd.notna` checks (a `none` is a
missing/NaN cell); `type` is total because `calculate_sensor_type_similarity`
reads it through `str(row.get('type', ''))`, whose value we store. -/
structure Row where
  name : String
  type : String
  features : Option String
  ip_rating : Option String
  operating_temp : Option String
  parsed_modules : List String
deriving DecidableEq, Repr

/-! ## Catalog normalizer (`parse_compatible_modules`) -/

def isBraceChar (c : Char) : Bool := c = lbrace || c = rbrace

/-- Core of `parse_compatible_modules` on character lists: strip enclosing
`{`/`}` characters, delete quote characters, split on commas, strip
whitespace, drop empty tokens. -/
def parseModulesL (cs : List Char) : List (List Char) :=
  let cleaned := pyEraseChar squote (pyEraseChar dquote (pyStrip isBraceChar cs))
  if cleaned = [] then []
  else
    ((pySplit ',' cleaned).map (pyStrip Char.isWhitespace)).filter (fun m => m ≠ [])

/-- `parse_compatible_modules(modules_str)`; `none` is Python `None`. -/
def parse_compatible_modules (modules_str : Option String) : List String :=
  match modules_str with
  | none => []
  | some s => if s = "" then [] else (parseModulesL s.toList).map (fun m => String.mk m)

/-! ## Type-similarity model (`calculate_sensor_type_similarity`) -/

structure KwEntry where
  primary : List String
  secondary : List String
deriving DecidableEq, Repr

/-- `sensor_type_keywords` table, transcribed verbatim (including the
upper-case entries such as `"VOC"` and `"CO2"`, which can never match the
lower-cased query). -/
def sensor_type_keywords : List (String × KwEntry) :=
  [("熱顯像",
    { primary := ["熱顯像", "紅外線", "熱源", "火源", "體溫", "溫度影像", "人員追蹤", "熱成像"]
      secondary := ["無接觸", "監控"] }),
   ("溫濕度",
    { primary := ["溫度", "濕度", "溫濕度", "環境溫度", "環境濕度", "空氣濕潤度"]
      secondary := ["監控", "控制", "農業", "環境", "溫室", "機房", "倉儲"] }),
   ("氣體感測",
    { primary := ["氨氣", "氣體", "空氣品質", "一氧化碳", "二氧化碳", "co2", "co₂", "甲烷",
        "VOC", "氣體檢測", "氣體洩漏", "可燃氣體", "空氣品質監控", "室內空氣", "通風",
        "空氣監測", "空氣檢測", "排風", "氣體濃度"]
      secondary := ["工業監控", "氣體洩漏"] }),
   ("毫米波雷達",
    { primary := ["毫米波", "雷達", "人流", "人數統計", "動線追蹤"]
      secondary := ["人員偵測", "流量統計"] }),
   ("超音波風速風向",
    { primary := ["風速", "風向", "氣象", "風力"]
      secondary := ["氣象", "氣候"] }),
   ("環境光感測",
    { primary := ["光照", "照度", "亮度", "環境光", "光度", "光照度", "日照強度"]
      secondary := ["農業", "日照", "光源"] }),
   ("傾斜/振動",
    { primary := ["傾斜", "振動", "角度", "穩定性監測", "機械振動", "結構監測"]
      secondary := ["機械監測", "設備監控"] }),
   ("二氧化碳氣體感測",
    { primary := ["CO2", "CO₂", "二氧化碳", "空氣品質", "空氣監測", "co2", "co₂",
        "二氧化碳濃度", "CO2濃度", "ppm", "火災"]
      secondary := ["通風", "空調", "室內環境"] })]

/-- Number of keywords of `kws` occurring as substrings of the lower-cased
query (Python `sum(1 for kw in kws if kw in user_lower)`). -/
def kwMatches (kws : List String) (userLower : List Char) : ℕ :=
  (kws.filter (fun kw => containsSub userLower kw.toList)).length

/-- The per-record body of the `calculate_sensor_type_similarity` loop.
Python floats are modelled by `ℚ` (all constants are decimal literals). -/
def typeSimRow (intent : IntentResult) (userLower : List Char) (rowType : String) : ℚ :=
  let sensor_type := pyStrip Char.isWhitespace rowType.toList
  if intent.exclude_keywords.any (fun ex => containsSub sensor_type ex.toList) then 0
  else if intent.direct_sensor_needs.contains (String.mk sensor_type) then 9/10
  else
    match (sensor_type_keywords.find? (fun p => p.1 = String.mk sensor_type)).map
        (fun p => p.2) with
    | none => 0
    | some kws =>
      let primary_matches := kwMatches kws.primary userLower
      let secondary_matches := kwMatches kws.secondary userLower
      if primary_matches ≠ 0 then
        let lp : ℚ := kws.primary.length
        let ls : ℚ := kws.secondary.length
        let primary_score : ℚ :=
          if 12 < kws.primary.length then min ((primary_matches : ℚ) / (lp / (5/2)) * 4) 1
          else if 5 < kws.primary.length then min ((primary_matches : ℚ) / (lp / (17/10)) * 4) 1
          else min ((primary_matches : ℚ) / (lp / (7/5)) * 4) 1
        let secondary_score : ℚ :=
          if 12 < kws.primary.length then
            min ((secondary_matches : ℚ) / (ls / (13/10)) * (3/10)) (1/5)
          else if 5 < kws.primary.length then
            min ((secondary_matches : ℚ) / (ls / (13/10)) * (3/10)) (1/5)
          else min ((secondary_matches : ℚ) / (ls / 1) * (3/10)) (1/5)
        min (primary_score + secondary_score) 1
      else 0

/-- `calculate_sensor_type_similarity(user_input, df)`. -/
def calculate_sensor_type_similarity (user_input : String) (df : List Row) : List ℚ :=
  let intent := analyze_user_intent user_input
  let userLower := lowerS user_input
  df.map (fun row => typeSimRow intent userLower row.type)

/-! ## Module-similarity model (`calculate_module_similarity`) -/

/-- Python `str.replace(needle, repl)`: all occurrences, left to right,
non-overlapping (`needle` nonempty at both call sites). -/
def replaceAll (needle repl : List Char) (l : List Char) : List Char :=
  match l with
  | [] => []
  | c :: cs =>
    if h : needle ≠ [] ∧ needle.isPrefixOf (c :: cs) then
      repl ++ replaceAll needle repl ((c :: cs).drop needle.length)
    else c :: replaceAll needle repl cs
  termination_by l.length
  decreasing_by
  · simp only [List.length_drop, List.length_cons]
    have hn : 1 ≤ needle.length := by
      cases hne : needle with
      | nil => exact absurd hne h.1
      | cons a b => simp
    omega
  · simp

def isOpenParen (c : Char) : Bool := c = '(' || c = '（'
def isCloseParen (c : Char) : Bool := c = ')' || c = '）'

/-- Drop everything up to and including the first closing parenthesis;
`none` when there is none. -/
def dropThroughClose : List Char → Option (List Char)
  | [] => none
  | c :: cs => if isCloseParen c then some cs else dropThroughClose cs

/-- `re.sub(r'[（(].*?[）)]', '', s)`: remove each segment from an opening
parenthesis through the first closing parenthesis after it. -/
def stripParens : List Char → List Char
  | [] => []
  | c :: cs =>
    if hP : isOpenParen c ∧ (dropThroughClose cs).isSome then
      stripParens ((dropThroughClose cs).get hP.2)
    else c :: stripParens cs
  termination_by l => l.length
  decreasing_by
  · have key : ∀ (x rest : List Char), dropThroughClose x = some rest →
        rest.length < x.length := by
      intro x
      induction x with
      | nil => intro rest h; simp [dropThroughClose] at h
      | cons a u ih =>
        intro rest h
        simp only [dropThroughClose] at h
        by_cases hc : isCloseParen a
        · rw [if_pos hc] at h; cases h; simp
        · rw [if_neg hc] at h; exact Nat.lt_succ_of_lt (ih rest h)
    exact Nat.lt_succ_of_lt (key t _ (Option.some_get hP.2).symm)
  · simp

structure AppEntry where
  primary : List String
  secondary : List String
  context : List String
deriving DecidableEq, Repr

/-- `application_keywords` table from `calculate_module_similarity`,
transcribed verbatim. -/
def application_keywords : List (String × AppEntry) :=
  [("溫濕度監控偵測",
    { primary := ["溫度", "濕度", "溫濕度", "環境溫度", "環境濕度"]
      secondary := ["農業", "氣候", "環境監控"]
      context := ["持續監測", "記錄", "感測"] }),
   ("火災預警偵測",
    { primary := ["火災", "火源", "熱源", "安全監控", "預警", "熱顯像", "co2", "CO₂",
        "二氧化碳", "濃度"]
      secondary := ["建築安全", "監控系統", "紅外線", "溫度監測"]
      context := ["即時", "自動", "警報", "偵測"] }),
   ("火災預警偵測(wifi)",
    { primary := ["火災", "無線", "wifi", "遠端監控", "熱顯像", "co2", "CO₂", "二氧化碳", "濃度"]
      secondary := ["物聯網", "iot", "雲端", "無線傳輸"]
      context := ["即時傳輸", "遠端", "無線通訊"] }),
   ("體溫偵測",
    { primary := ["體溫", "紅外線感測", "熱顯像", "額溫偵測"]
      secondary := ["發燒", "體表溫度", "醫療偵測", "健康監控"]
      context := ["即時傳輸", "遠端", "不接觸"] }),
   ("氣候光照偵測",
    { primary := ["光照", "照度", "環境光", "氣候", "co2", "CO₂", "二氧化碳"]
      secondary := ["農業", "植物生長", "溫室", "環境監測"]
      context := ["光線感測", "氣候監控", "環境參數"] }),
   ("土壤氣候整合偵測",
    { primary := ["土壤", "氣候", "農業", "種植", "co2", "CO₂", "光照", "溫濕度"]
      secondary := ["智慧農業", "精準農業", "植物生長"]
      context := ["整合監測", "多參數", "農業應用"] }),
   ("無CO2土壤氣候偵測",
    { primary := ["土壤", "氣候", "光照", "環境監測", "無co2"]
      secondary := ["簡化監測", "基礎農業", "環境感測"]
      context := ["基本參數", "成本優化"] }),
   ("人流計算與氨氣感測",
    { primary := ["人流", "人數統計", "氨氣", "毫米波", "雷達", "空氣品質", "空氣監控",
        "空氣異味", "有害氣體", "空氣", "人潮", "排風", "換氣"]
      secondary := ["空氣品質", "人員統計", "通風", "排風系統", "除臭", "空間使用"]
      context := ["雷達偵測", "氣體監測", "雙重功能"] }),
   ("森林應用監測",
    { primary := ["森林", "風力", "風向", "風速", "戶外監測"]
      secondary := ["氣象", "環境監測", "野外應用"]
      context := ["超音波", "氣象參數", "戶外環境"] }),
   ("傾斜偵測",
    { primary := ["傾斜", "角度", "穩定性", "結構監測", "振動"]
      secondary := ["建築安全", "結構健康", "設備監控"]
      context := ["雙軸", "精密測量", "安全監控"] }),
   ("馬達偵測",
    { primary := ["馬達", "振動", "設備監控", "機械", "傾斜"]
      secondary := ["工業設備", "預測維護", "機械健康"]
      context := ["設備診斷", "振動分析", "預防保養"] })]

/-- `difflib.get_close_matches(module_clean, lowered_keys, n=1, cutoff=0.6)`
is an external approximate-matching library routine; it is modelled by a
caller-supplied function returning at most one candidate (the spec treats
the exact fuzzy algorithm as replaceable). -/
def CloseMatchFn : Type := List Char → Option String

/-- A concrete instance of the external fuzzy matcher used in witnesses:
never returns a candidate. -/
def cmNone : CloseMatchFn := fun _ => none

/-- Resolution of a cleaned module name to an `application_keywords` key:
exact substring containment in either direction first, then the fuzzy
matcher, whose lower-cased result is mapped back to an original key. -/
def resolveProfileKey (cm : CloseMatchFn) (module_clean : List Char) : Option String :=
  match application_keywords.find? (fun p =>
      containsSub (lowerL p.1.toList) module_clean ||
      containsSub module_clean (lowerL p.1.toList)) with
  | some p => some p.1
  | none =>
    match cm module_clean with
    | none => none
    | some m0 =>
      (application_keywords.find? (fun k => lowerL k.1.toList = m0.toList)).map (fun k => k.1)

/-- One iteration of the inner loop of `calculate_module_similarity`:
update the running `max_similarity` with one compatible module. -/
def moduleStep (cm : CloseMatchFn) (userLower : List Char) (acc : ℚ) (m : String) : ℚ :=
  let module_clean :=
    replaceAll (String.toList "偵測器") (String.toList "偵測")
      (stripParens (lowerL m.toList))
  if containsSub userLower module_clean then max acc 1
  else
    match resolveProfileKey cm module_clean with
    | none => acc
    | some key =>
      match (application_keywords.find? (fun p => p.1 = key)).map (fun p => p.2) with
      | none => acc
      | some kw =>
        let primary := kwMatches kw.primary userLower
        let secondary := kwMatches kw.secondary userLower
        let ctx := kwMatches kw.context userLower
        let weight : ℚ := (primary : ℚ) * 1 + (secondary : ℚ) * (1/5) + (ctx : ℚ) * (1/20)
        let total : ℚ := (kw.primary.length : ℚ) * (2/5) + (kw.secondary.length : ℚ) * (7/100)
          + (kw.context.length : ℚ) * (1/50)
        max acc (weight / total)

/-- The per-record body of the `calculate_module_similarity` loop. -/
def moduleSimRow (cm : CloseMatchFn) (userLower : List Char) (mods : List String) : ℚ :=
  min (mods.foldl (moduleStep cm userLower) 0) 1

/-- `calculate_module_similarity(user_input, df)`. -/
def calculate_module_similarity (cm : CloseMatchFn) (user_input : String) (df : List Row) :
    List ℚ :=
  let userLower := lowerS user_input
  df.map (fun row => moduleSimRow cm userLower row.parsed_modules)

/-! ## Environment-similarity model (`calculate_environment_similarity`) -/

/-- `env_requirements` table (the `人員追蹤` entry exists in the source but
is never read by the loop body). -/
def env_requirements : List (String × List String) :=
  [("低溫環境", ["低溫", "冷藏", "冷凍", "極低溫"]),
   ("高濕環境", ["高濕", "潮濕", "抗濕"]),
   ("AI擴充", ["AI", "人工智慧", "機器學習", "行為辨識"]),
   ("即時監控", ["即時", "實時", "連續監測"]),
   ("人員追蹤", ["人員", "移動軌跡", "追蹤", "行為"])]

def envReq (k : String) : List String :=
  ((env_requirements.find? (fun p => p.1 = k)).map (fun p => p.2)).getD []

def anyKwIn (kws : List String) (hay : List Char) : Bool :=
  kws.any (fun kw => containsSub hay kw.toList)

/-- Low-temperature bonus (`env_score += 0.3`). -/
def envBonusLowTemp (userLower : List Char) (row : Row) : ℚ :=
  if anyKwIn (envReq "低溫環境") userLower then
    match row.operating_temp with
    | some tr =>
      if tr.toList.contains '-' then
        match findInts tr.toList with
        | t0 :: _ :: _ => if tokToInt t0 ≤ -20 then 3/10 else 0
        | _ => 0
      else 0
    | none => 0
  else 0

/-- High-humidity bonus (`env_score += 0.2`). -/
def envBonusHumid (userLower : List Char) (row : Row) : ℚ :=
  if anyKwIn (envReq "高濕環境") userLower then
    match row.ip_rating with
    | some ip =>
      if ["IP65", "IP66", "IPX7"].any
          (fun r => containsSub (upperL ip.toList) r.toList) then 1/5 else 0
    | none => 0
  else 0

/-- AI-expandability bonus (`env_score += 0.2`). -/
def envBonusAI (userLower : List Char) (row : Row) : ℚ :=
  if anyKwIn (envReq "AI擴充") userLower then
    match row.features with
    | some f =>
      if ["分析", "智能", "擴充", "平台"].any
          (fun k => containsSub (lowerL f.toList) k.toList) then 1/5 else 0
    | none => 0
  else 0

/-- Real-time-monitoring bonus (`env_score += 0.15`). -/
def envBonusRealtime (userLower : List Char) (row : Row) : ℚ :=
  if anyKwIn (envReq "即時監控") userLower then
    match row.features with
    | some f =>
      if ["即時", "連續", "持續"].any
          (fun k => containsSub (lowerL f.toList) k.toList) then 3/20 else 0
    | none => 0
  else 0

/-- The per-record body of the `calculate_environment_similarity` loop:
four additive bonuses, capped at 1. -/
def envSimRow (userLower : List Char) (row : Row) : ℚ :=
  min (envBonusLowTemp userLower row + envBonusHumid userLower row
    + envBonusAI userLower row + envBonusRealtime userLower row) 1

/-- `calculate_environment_similarity(user_input, df)`. -/
def calculate_environment_similarity (user_input : String) (df : List Row) : List ℚ :=
  let userLower := lowerS user_input
  df.map (fun row => envSimRow userLower row)

/-! ## Score fusion and ranking (`recommend_advanced`)

The external embedding collaborator (`model.encode` + `util.cos_sim`) is a
synchronous call that either yields one cosine-similarity value per catalog
record or raises; it is modelled as an `Except` argument.  The whole body of
`recommend_advanced` runs inside `try: ... except Exception: return None`,
so a collaborator failure takes the `except` branch. -/

/-- One row of the scored copy of the DataFrame (`df_copy` in the source):
the original record, its position in the catalog, the four component scores
and the fused `final_score`. -/
structure ScoredRow where
  idx : ℕ
  row : Row
  sensor_type_similarity : ℚ
  module_similarity : ℚ
  semantic_similarity : ℚ
  environment_similarity : ℚ
  final_score : ℚ
deriving DecidableEq, Repr

/-- Steps 1–6 of `recommend_advanced`: compute the four per-record score
arrays and fuse them with the caller-supplied weights
(`final_scores = type*w_t + module*w_m + semantic*w_s + environment*w_e`). -/
def scoreAll (cm : CloseMatchFn) (user_input : String) (df : List Row)
    (semantic_similarities : List ℚ)
    (sensor_type_weight module_weight semantic_weight environment_weight : ℚ) :
    List ScoredRow :=
  let intent := analyze_user_intent user_input
  let userLower := lowerS user_input
  (df.enum.zip semantic_similarities).map (fun p =>
    let i := p.1.1
    let row := p.1.2
    let sem := p.2
    let t := typeSimRow intent userLower row.type
    let m := moduleSimRow cm userLower row.parsed_modules
    let e := envSimRow userLower row
    { idx := i
      row := row
      sensor_type_similarity := t
      module_similarity := m
      semantic_similarity := sem
      environment_similarity := e
      final_score := t * sensor_type_weight + m * module_weight + sem * semantic_weight
        + e * environment_weight })

/-- `df.sort_values(by="final_score", ascending=False)` with its default
`kind='quicksort'`: pandas documents that kind as not stable, so the order
the call produces among records with exactly equal fused scores is
implementation-defined (it varies with the catalog size and the NumPy
version).  The sort is therefore modelled as a caller-supplied function on
the filtered rows, like the other external routine
(`difflib.get_close_matches`). -/
def SortFn : Type := List ScoredRow → List ScoredRow

/-- A concrete instance of the sorting routine used in witnesses: the
identity (any instance serves for runs whose conclusion does not depend on
the produced order). -/
def sortId : SortFn := fun l => l

/-- Steps 7–8 of `recommend_advanced`: keep records with
`final_score >= threshold`, sort them with `sort_values` (the `sorter`
parameter), return `None` if none survive, else the first `top_k`.  The
source tests `matched.empty` after sorting; since `sort_values` returns a
permutation of the filtered rows, that is the emptiness of the filter
result, which is how it is written here. -/
def recommend_advanced (sorter : SortFn) (cm : CloseMatchFn) (user_input : String)
    (df : Option (List Row)) (model device_embeddings : Option Unit)
    (semantic : Except String (List ℚ))
    (sensor_type_weight module_weight semantic_weight environment_weight threshold : ℚ)
    (top_k : ℕ) : Option (List ScoredRow) :=
  match df, model, device_embeddings with
  | some rows, some _, some _ =>
    match semantic with
    | .error _ => none
    | .ok sems =>
      let scored := scoreAll cm user_input rows sems
        sensor_type_weight module_weight semantic_weight environment_weight
      let filtered := scored.filter (fun r => threshold ≤ r.final_score)
      if filtered.isEmpty then none else some ((sorter filtered).take top_k)
  | _, _, _ => none

/-! ## Rendering a parsed module list back to text

Used to state the idempotence property of `parse_compatible_modules`
("re-parsing the rendered output"): entries joined by a comma and a space. -/

def joinComma : List (List Char) → List Char
  | [] => []
  | [m] => m
  | m :: ms => m ++ ',' :: ' ' :: joinComma ms

def renderModules (ms : List String) : String :=
  String.mk (joinComma (ms.map String.toList))

/-! ## Concrete sample data used by witnesses and counterexamples -/

/-- A thermal-imaging catalog record. -/
def rowTherm : Row :=
  { name := "熱顯像感測器A", type := "熱顯像", features := none, ip_rating := none,
    operating_temp := none, parsed_modules := [] }

/-- A record whose type matches nothing. -/
def rowPlain : Row :=
  { name := "x", type := "x", features := none, ip_rating := none,
    operating_temp := none, parsed_modules := [] }

/-- A temperature-humidity record. -/
def rowTempHum : Row :=
  { name := "溫濕度感測器", type := "溫濕度", features := none, ip_rating := none,
    operating_temp := some "-30~60", parsed_modules := [] }

/-- A record whose type contains the excluded label `"溫濕度"` as a proper
substring. -/
def rowTempHumDev : Row :=
  { name := "溫濕度感測器", type := "溫濕度感測器", features := none, ip_rating := none,
    operating_temp := none, parsed_modules := [] }

/-! # Helper lemmas -/

theorem exclude_keywords_def (q : String) :
    (analyze_user_intent q).exclude_keywords = if exclCond q then ["溫濕度"] else [] := rfl

theorem direct_needs_def (q : String) :
    (analyze_user_intent q).direct_sensor_needs = directNeedsOf q := rfl

theorem env_ctx_def (q : String) :
    (analyze_user_intent q).environmental_context = envCtxOf q := rfl

/-- The only label the source ever appends to the exclusion list is
`"溫濕度"`. -/
theorem mem_exclude_eq {q x : String}
    (hx : x ∈ (analyze_user_intent q).exclude_keywords) : x = "溫濕度" := by
  rw [exclude_keywords_def] at hx
  cases h : exclCond q
  · rw [h] at hx; simp at hx
  · rw [h] at hx; simpa using hx

/-- If the exclusion list is inhabited, the derivation condition held. -/
theorem exclCond_of_mem_exclude {q x : String}
    (hx : x ∈ (analyze_user_intent q).exclude_keywords) : exclCond q = true := by
  rw [exclude_keywords_def] at hx
  cases h : exclCond q
  · rw [h] at hx; simp at hx
  · rfl

/-- Unfolding of the exclusion-derivation condition. -/
theorem exclCond_iff (q : String) :
    exclCond q = true ↔
      (("低溫環境" ∈ envCtxOf q ∨ "高濕環境" ∈ envCtxOf q ∨ "高溫環境" ∈ envCtxOf q) ∧
        "溫濕度" ∉ directNeedsOf q) := by
  unfold exclCond
  rw [Bool.and_eq_true, List.any_eq_true, Bool.not_eq_true', ← Bool.not_eq_true]
  constructor
  · rintro ⟨⟨x, hxl, hxc⟩, hnd⟩
    refine ⟨?_, fun hmem => hnd (List.elem_eq_true_of_mem hmem)⟩
    have hxm : x ∈ envCtxOf q := List.mem_of_elem_eq_true hxc
    simp only [List.mem_cons, List.not_mem_nil, or_false] at hxl
    rcases hxl with rfl | rfl | rfl
    · exact Or.inl hxm
    · exact Or.inr (Or.inl hxm)
    · exact Or.inr (Or.inr hxm)
  · rintro ⟨hctx, hnd⟩
    refine ⟨?_, fun hel => hnd (List.mem_of_elem_eq_true hel)⟩
    rcases hctx with h | h | h
    · exact ⟨"低溫環境", by simp, List.elem_eq_true_of_mem h⟩
    · exact ⟨"高濕環境", by simp, List.elem_eq_true_of_mem h⟩
    · exact ⟨"高溫環境", by simp, List.elem_eq_true_of_mem h⟩

/-- Every recorded direct sensor need is one of the eight labels of
`direct_needs_patterns`. -/
theorem mem_directNeeds_labels {q x : String} (hx : x ∈ directNeedsOf q) :
    x ∈ ["熱顯像", "毫米波雷達", "氣體感測", "二氧化碳氣體感測", "溫濕度",
      "環境光感測", "傾斜/振動", "超音波風速風向"] := by
  unfold directNeedsOf at hx
  rw [List.mem_map] at hx
  obtain ⟨p, hp, rfl⟩ := hx
  have hmem := List.mem_of_mem_filter hp
  simp only [direct_needs_patterns, List.mem_cons, List.not_mem_nil, or_false] at hmem
  rcases hmem with rfl | rfl | rfl | rfl | rfl | rfl | rfl | rfl <;> simp

/-! # Claims about the intent extractor -/

/-- C8: the intent extractor appends `"溫濕度"` (temperature-humidity) to the
exclusion list exactly when the extracted environmental context contains one
of 低溫環境/高濕環境/高溫環境 and `"溫濕度"` is not among the direct sensor
needs. -/
theorem C8_exclusion_derivation (q : String) :
    "溫濕度" ∈ (analyze_user_intent q).exclude_keywords ↔
      (("低溫環境" ∈ (analyze_user_intent q).environmental_context ∨
        "高濕環境" ∈ (analyze_user_intent q).environmental_context ∨
        "高溫環境" ∈ (analyze_user_intent q).environmental_context) ∧
        "溫濕度" ∉ (analyze_user_intent q).direct_sensor_needs) := by
  rw [exclude_keywords_def, direct_needs_def, env_ctx_def, ← exclCond_iff]
  rcases Bool.eq_false_or_eq_true (exclCond q) with h | h <;> rw [h] <;> simp

/-! # Claims about the type-similarity model -/

theorem calc_type_get (q : String) (df : List Row) (i : ℕ) :
    (calculate_sensor_type_similarity q df)[i]? =
      (df[i]?).map (fun r => typeSimRow (analyze_user_intent q) (lowerS q) r.type) := by
  unfold calculate_sensor_type_similarity
  rw [List.getElem?_map]

/-- C5: a record whose `type` is a member of the query's derived exclusion
set receives type-similarity exactly 0, whatever else matches. -/
theorem C5_excluded_type_zero (q : String) (df : List Row) (i : ℕ) (r : Row)
    (hr : df[i]? = some r)
    (hx : r.type ∈ (analyze_user_intent q).exclude_keywords) :
    (calculate_sensor_type_similarity q df)[i]? = some 0 := by
  rw [calc_type_get, hr, Option.map_some']
  have htype : r.type = "溫濕度" := mem_exclude_eq hx
  rw [htype] at hx
  congr 1
  simp only [typeSimRow]
  rw [htype, if_pos (List.any_eq_true.mpr ⟨"溫濕度", hx, by decide⟩)]

/-- C5 witness: the query 「冷藏倉庫」 derives the exclusion `"溫濕度"`, and a
record of that exact type scores 0. -/
theorem C5_witness :
    "溫濕度" ∈ (analyze_user_intent "冷藏倉庫").exclude_keywords ∧
      (calculate_sensor_type_similarity "冷藏倉庫" [rowTempHum])[0]? = some 0 :=
  ⟨by decide, C5_excluded_type_zero "冷藏倉庫" [rowTempHum] 0 rowTempHum rfl (by decide)⟩

/-- C10: the exclusion test in the source is substring containment, so a
record whose `type` merely contains an excluded keyword also scores 0. -/
theorem C10_substring_exclusion (q : String) (df : List Row) (i : ℕ) (r : Row) (ex : String)
    (hr : df[i]? = some r)
    (hex : ex ∈ (analyze_user_intent q).exclude_keywords)
    (hsub : containsSub (pyStrip Char.isWhitespace r.type.toList) ex.toList = true) :
    (calculate_sensor_type_similarity q df)[i]? = some 0 := by
  rw [calc_type_get, hr, Option.map_some']
  congr 1
  simp only [typeSimRow]
  rw [if_pos (List.any_eq_true.mpr ⟨ex, hex, hsub⟩)]

/-- C10 witness: the type `"溫濕度感測器"` is not equal to the excluded label
`"溫濕度"` but contains it, and scores 0. -/
theorem C10_witness :
    "溫濕度" ∈ (analyze_user_intent "冷藏倉庫").exclude_keywords ∧
      rowTempHumDev.type ≠ "溫濕度" ∧
      (calculate_sensor_type_similarity "冷藏倉庫" [rowTempHumDev])[0]? = some 0 :=
  ⟨by decide, by decide,
    C10_substring_exclusion "冷藏倉庫" [rowTempHumDev] 0 rowTempHumDev "溫濕度" rfl
      (by decide) (by decide)⟩

/-- C6: a record whose `type` is among the direct sensor needs and not in
the exclusion set scores exactly 0.9 (= 9/10 as an exact rational). -/
theorem C6_direct_need_score (q : String) (df : List Row) (i : ℕ) (r : Row)
    (hr : df[i]? = some r)
    (h1 : r.type ∈ (analyze_user_intent q).direct_sensor_needs)
    (h2 : r.type ∉ (analyze_user_intent q).exclude_keywords) :
    (calculate_sensor_type_similarity q df)[i]? = some (9/10) := by
  rw [calc_type_get, hr, Option.map_some']
  congr 1
  have hlab := mem_directNeeds_labels (by rwa [direct_needs_def] at h1)
  simp only [List.mem_cons, List.not_mem_nil, or_false] at hlab
  rcases hlab with ht | ht | ht | ht | ht | ht | ht | ht <;>
  · have hne : ∀ ex ∈ (analyze_user_intent q).exclude_keywords,
        ¬(containsSub (pyStrip Char.isWhitespace r.type.toList) ex.toList = true) := by
      intro ex hexmem
      have hEx := mem_exclude_eq hexmem
      subst hEx
      rw [ht]
      first
      | decide
      | (rw [ht] at h2; exact absurd hexmem h2)
    have hmk : String.mk (pyStrip Char.isWhitespace r.type.toList) = r.type := by
      rw [ht]; decide
    have hcont : (analyze_user_intent q).direct_sensor_needs.contains
        (String.mk (pyStrip Char.isWhitespace r.type.toList)) = true := by
      rw [hmk]; exact List.elem_eq_true_of_mem h1
    simp only [typeSimRow]
    rw [if_neg (by rw [List.any_eq_false.mpr hne]; exact Bool.false_ne_true),
      if_pos hcont]

/-- C6 witness: the query 「需要溫濕度感測器」 records the direct need
`"溫濕度"` with an empty exclusion list, and a record of that type scores
exactly 0.9. -/
theorem C6_witness :
    "溫濕度" ∈ (analyze_user_intent "需要溫濕度感測器").direct_sensor_needs ∧
      "溫濕度" ∉ (analyze_user_intent "需要溫濕度感測器").exclude_keywords ∧
      (calculate_sensor_type_similarity "需要溫濕度感測器" [rowTempHum])[0]? = some (9/10) :=
  ⟨by decide, by decide,
    C6_direct_need_score "需要溫濕度感測器" [rowTempHum] 0 rowTempHum rfl
      (by decide) (by decide)⟩

/-! # Score bounds -/

theorem typeSimRow_bounds (intent : IntentResult) (ul : List Char) (t : String) :
    0 ≤ typeSimRow intent ul t ∧ typeSimRow intent ul t ≤ 1 := by
  simp only [typeSimRow]
  split
  · norm_num
  split
  · norm_num
  split
  · norm_num
  split
  · refine ⟨le_min (add_nonneg ?_ ?_) zero_le_one, min_le_right _ _⟩
    · split
      · exact le_min (by positivity) zero_le_one
      split
      · exact le_min (by positivity) zero_le_one
      · exact le_min (by positivity) zero_le_one
    · split
      · exact le_min (by positivity) (by norm_num)
      split
      · exact le_min (by positivity) (by norm_num)
      · exact le_min (by positivity) (by norm_num)
  · norm_num

theorem moduleStep_ge (cm : CloseMatchFn) (ul : List Char) (acc : ℚ) (m : String) :
    acc ≤ moduleStep cm ul acc m := by
  simp only [moduleStep]
  split
  · exact le_max_left _ _
  split
  · exact le_refl acc
  split
  · exact le_refl acc
  · exact le_max_left _ _

theorem foldl_moduleStep_ge (cm : CloseMatchFn) (ul : List Char) (mods : List String) :
    ∀ acc : ℚ, acc ≤ mods.foldl (moduleStep cm ul) acc := by
  induction mods with
  | nil => intro acc; exact le_refl acc
  | cons m ms ih =>
    intro acc
    rw [List.foldl_cons]
    exact le_trans (moduleStep_ge cm ul acc m) (ih _)

theorem moduleSimRow_bounds (cm : CloseMatchFn) (ul : List Char) (mods : List String) :
    0 ≤ moduleSimRow cm ul mods ∧ moduleSimRow cm ul mods ≤ 1 :=
  ⟨le_min (foldl_moduleStep_ge cm ul mods 0) zero_le_one, min_le_right _ _⟩

theorem envBonusLowTemp_nonneg (ul : List Char) (row : Row) :
    0 ≤ envBonusLowTemp ul row := by
  simp only [envBonusLowTemp]
  repeat' split <;> norm_num

theorem envBonusHumid_nonneg (ul : List Char) (row : Row) :
    0 ≤ envBonusHumid ul row := by
  simp only [envBonusHumid]
  repeat' split <;> norm_num

theorem envBonusAI_nonneg (ul : List Char) (row : Row) :
    0 ≤ envBonusAI ul row := by
  simp only [envBonusAI]
  repeat' split <;> norm_num

theorem envBonusRealtime_nonneg (ul : List Char) (row : Row) :
    0 ≤ envBonusRealtime ul row := by
  simp only [envBonusRealtime]
  repeat' split <;> norm_num

theorem envSimRow_bounds (ul : List Char) (row : Row) :
    0 ≤ envSimRow ul row ∧ envSimRow ul row ≤ 1 :=
  ⟨le_min
    (add_nonneg (add_nonneg (add_nonneg (envBonusLowTemp_nonneg ul row)
      (envBonusHumid_nonneg ul row)) (envBonusAI_nonneg ul row))
      (envBonusRealtime_nonneg ul row)) zero_le_one,
    min_le_right _ _⟩

/-! # Claim C1: component-score ranges and the fusion formula -/

/-- C1 (amended): every scored record's three rule-based component scores
lie in [0,1], its semantic score is one of the externally supplied cosine
values (passed through unchanged, not clamped to [0,1]), and its fused
score is exactly
`type*w_type + module*w_module + semantic*w_semantic + env*w_environment`. -/
theorem C1_component_scores_and_fusion (cm : CloseMatchFn) (q : String) (df : List Row)
    (sems : List ℚ) (wt wm ws we : ℚ) (e : ScoredRow)
    (he : e ∈ scoreAll cm q df sems wt wm ws we) :
    (0 ≤ e.sensor_type_similarity ∧ e.sensor_type_similarity ≤ 1) ∧
    (0 ≤ e.module_similarity ∧ e.module_similarity ≤ 1) ∧
    (0 ≤ e.environment_similarity ∧ e.environment_similarity ≤ 1) ∧
    e.semantic_similarity ∈ sems ∧
    e.final_score = e.sensor_type_similarity * wt + e.module_similarity * wm
      + e.semantic_similarity * ws + e.environment_similarity * we := by
  simp only [scoreAll] at he
  rw [List.mem_map] at he
  obtain ⟨p, hp, rfl⟩ := he
  refine ⟨typeSimRow_bounds _ _ _, moduleSimRow_bounds _ _ _, envSimRow_bounds _ _,
    ?_, rfl⟩
  exact (List.of_mem_zip hp).2

/-- Evaluation on one record and one semantic score, by unfolding (no
rational arithmetic is performed, so this is definitional). -/
theorem scoreAll_single (cm : CloseMatchFn) (q : String) (r : Row) (s wt wm ws we : ℚ) :
    scoreAll cm q [r] [s] wt wm ws we =
      [{ idx := 0, row := r,
         sensor_type_similarity := typeSimRow (analyze_user_intent q) (lowerS q) r.type,
         module_similarity := moduleSimRow cm (lowerS q) r.parsed_modules,
         semantic_similarity := s,
         environment_similarity := envSimRow (lowerS q) r,
         final_score := typeSimRow (analyze_user_intent q) (lowerS q) r.type * wt
           + moduleSimRow cm (lowerS q) r.parsed_modules * wm + s * ws
           + envSimRow (lowerS q) r * we }] := rfl

/-- 「熱顯像」 is a direct need of the query 「熱顯像」, so its type score is
0.9. -/
theorem typeSim_therm_eval :
    typeSimRow (analyze_user_intent "熱顯像") (lowerS "熱顯像") "熱顯像" = 9/10 := by
  simp only [typeSimRow]
  rw [if_neg (by decide), if_pos (by decide)]

theorem moduleSim_empty_eval (cm : CloseMatchFn) (ul : List Char) :
    moduleSimRow cm ul [] = 0 := by
  simp only [moduleSimRow, List.foldl_nil]
  norm_num

/-- A record with no features, IP rating or operating temperature collects
no environment bonus. -/
theorem envSim_noneFields_eval (ul : List Char) (row : Row)
    (hf : row.features = none) (hip : row.ip_rating = none)
    (ht : row.operating_temp = none) :
    envSimRow ul row = 0 := by
  simp only [envSimRow, envBonusLowTemp, envBonusHumid, envBonusAI, envBonusRealtime,
    hf, hip, ht]
  split_ifs <;> norm_num

/-- C1 witness: a concrete scored record with every hypothesis discharged. -/
theorem C1_witness :
    (0 ≤ (9/10 : ℚ) ∧ (9/10 : ℚ) ≤ 1) ∧
    (0 ≤ (0 : ℚ) ∧ (0 : ℚ) ≤ 1) ∧
    (0 ≤ (0 : ℚ) ∧ (0 : ℚ) ≤ 1) ∧
    ((1:ℚ)/2 ∈ [(1:ℚ)/2]) ∧
    ((9/10 : ℚ) * (2/5) + (0 : ℚ) * (3/10) + (1:ℚ)/2 * (1/4) + (0 : ℚ) * (1/20)
      = (9/10 : ℚ) * (2/5) + (0 : ℚ) * (3/10) + (1:ℚ)/2 * (1/4) + (0 : ℚ) * (1/20)) := by
  have h := C1_component_scores_and_fusion cmNone "熱顯像" [rowTherm] [(1:ℚ)/2]
    (2/5) (3/10) (1/4) (1/20)
    { idx := 0, row := rowTherm,
      sensor_type_similarity :=
        typeSimRow (analyze_user_intent "熱顯像") (lowerS "熱顯像") rowTherm.type,
      module_similarity := moduleSimRow cmNone (lowerS "熱顯像") rowTherm.parsed_modules,
      semantic_similarity := 1/2,
      environment_similarity := envSimRow (lowerS "熱顯像") rowTherm,
      final_score :=
        typeSimRow (analyze_user_intent "熱顯像") (lowerS "熱顯像") rowTherm.type * (2/5)
          + moduleSimRow cmNone (lowerS "熱顯像") rowTherm.parsed_modules * (3/10)
          + (1:ℚ)/2 * (1/4) + envSimRow (lowerS "熱顯像") rowTherm * (1/20) }
    (by rw [scoreAll_single]; exact List.mem_singleton.mpr rfl)
  rw [show rowTherm.parsed_modules = [] from rfl, show rowTherm.type = "熱顯像" from rfl] at h
  simpa only [typeSim_therm_eval, moduleSim_empty_eval,
    envSim_noneFields_eval _ rowTherm rfl rfl rfl] using h

/-- C1 counterexample: the semantic component is the raw cosine similarity
supplied by the embedding collaborator; with the legitimate cosine value
-1/2 the scored record's semantic component is negative, so the claim that
all four component scores lie in [0,1] is false. -/
theorem C1_counterexample :
    ((scoreAll cmNone "熱顯像" [rowTherm] [-(1:ℚ)/2] (2/5) (3/10) (1/4) (1/20)).map
      (fun e => e.semantic_similarity)) = [-(1:ℚ)/2] ∧
    ¬((0:ℚ) ≤ -(1:ℚ)/2) := by
  constructor
  · rfl
  · norm_num

/-! # Claims C3 and C4: ranker result shape and embedding failure -/

/-- Definitional unfolding of the successful-collaborator branch. -/
theorem recommend_ok_def (sorter : SortFn) (cm : CloseMatchFn) (q : String)
    (rows : List Row) (s : List ℚ) (wt wm ws we th : ℚ) (k : ℕ) :
    recommend_advanced sorter cm q (some rows) (some ()) (some ()) (.ok s) wt wm ws we th k =
      (if ((scoreAll cm q rows s wt wm ws we).filter
            (fun r => th ≤ r.final_score)).isEmpty then none
       else some ((sorter ((scoreAll cm q rows s wt wm ws we).filter
            (fun r => th ≤ r.final_score))).take k)) := rfl

/-- When every fused score is below the threshold the filter is empty and
the source returns `None`. -/
theorem recommend_below_threshold (sorter : SortFn) (cm : CloseMatchFn) (q : String)
    (rows : List Row) (s : List ℚ) (wt wm ws we th : ℚ) (k : ℕ)
    (h : ∀ e ∈ scoreAll cm q rows s wt wm ws we, e.final_score < th) :
    recommend_advanced sorter cm q (some rows) (some ()) (some ()) (.ok s) wt wm ws we th k
      = none := by
  rw [recommend_ok_def]
  have hfil : (scoreAll cm q rows s wt wm ws we).filter (fun r => th ≤ r.final_score) = [] :=
    List.filter_eq_nil_iff.mpr (fun e he => by
      simp only [decide_eq_true_eq]
      exact not_le.mpr (h e he))
  rw [hfil]
  rfl

/-- The record `rowPlain` matches nothing in the query `"abc"`. -/
theorem typeSim_plain_eval :
    typeSimRow (analyze_user_intent "abc") (lowerS "abc") "x" = 0 := by
  simp only [typeSimRow]
  rw [if_neg (by decide), if_neg (by decide)]
  split
  · rfl
  · next kws heq =>
    rw [show (sensor_type_keywords.find? (fun p =>
        p.1 = String.mk (pyStrip Char.isWhitespace (String.toList "x")))).map
        (fun p => p.2) = none from by decide] at heq
    exact Option.noConfusion heq

/-- Every fused score of the one-record catalog `[rowPlain]` under query
`"abc"` is below 1/2. -/
theorem plain_all_below_half :
    ∀ e ∈ scoreAll cmNone "abc" [rowPlain] [(0:ℚ)] (2/5) (3/10) (1/4) (1/20),
      e.final_score < 1/2 := by
  intro e he
  rw [scoreAll_single, List.mem_singleton] at he
  subst he
  dsimp only
  rw [show rowPlain.type = "x" from rfl, show rowPlain.parsed_modules = [] from rfl,
    typeSim_plain_eval, moduleSim_empty_eval, envSim_noneFields_eval _ rowPlain rfl rfl rfl]
  norm_num

/-- C3 counterexample: when no record clears the threshold the source
returns Python `None` (modelled `none`), not an empty list, refuting the
claim that the caller always receives a list. -/
theorem C3_counterexample :
    recommend_advanced sortId cmNone "abc" (some [rowPlain]) (some ()) (some ()) (.ok [0])
      (2/5) (3/10) (1/4) (1/20) (1/2) 3 = none ∧
    recommend_advanced sortId cmNone "abc" (some [rowPlain]) (some ()) (some ()) (.ok [0])
      (2/5) (3/10) (1/4) (1/20) (1/2) 3 ≠ some [] := by
  have hmain : recommend_advanced sortId cmNone "abc" (some [rowPlain]) (some ()) (some ())
      (.ok [0]) (2/5) (3/10) (1/4) (1/20) (1/2) 3 = none :=
    recommend_below_threshold sortId cmNone "abc" [rowPlain] [0] (2/5) (3/10) (1/4) (1/20)
      (1/2) 3 plain_all_below_half
  exact ⟨hmain, by rw [hmain]; exact fun hc => Option.noConfusion hc⟩

/-- C3 (amended): if no record's fused score reaches the threshold,
`recommend_advanced` returns `None` — a normal null return, not an error and
not an empty list — whatever order `sort_values` produces. -/
theorem C3_no_survivor_returns_none (sorter : SortFn) (cm : CloseMatchFn) (q : String)
    (rows : List Row) (s : List ℚ) (wt wm ws we th : ℚ) (k : ℕ)
    (h : ∀ e ∈ scoreAll cm q rows s wt wm ws we, e.final_score < th) :
    recommend_advanced sorter cm q (some rows) (some ()) (some ()) (.ok s) wt wm ws we th k
      = none :=
  recommend_below_threshold sorter cm q rows s wt wm ws we th k h

/-- C3 witness. -/
theorem C3_witness :
    recommend_advanced sortId cmNone "abc" (some [rowPlain]) (some ()) (some ()) (.ok [0])
      (2/5) (3/10) (1/4) (1/20) (1/2) 5 = none :=
  C3_no_survivor_returns_none sortId cmNone "abc" [rowPlain] [0] (2/5) (3/10) (1/4) (1/20)
    (1/2) 5 plain_all_below_half

/-- C4 counterexample: a failing embedding call is caught by the blanket
`except` and converted into the same `None` value that an ordinary
no-match run produces, so the failure does not propagate as a distinct
error. -/
theorem C4_counterexample :
    recommend_advanced sortId cmNone "熱顯像" (some [rowTherm]) (some ()) (some ())
      (.error "encode raised") (2/5) (3/10) (1/4) (1/20) (1/2) 3 = none ∧
    recommend_advanced sortId cmNone "abc" (some [rowPlain]) (some ()) (some ()) (.ok [0])
      (2/5) (3/10) (1/4) (1/20) (1/2) 4 = none := by
  refine ⟨rfl, ?_⟩
  exact recommend_below_threshold sortId cmNone "abc" [rowPlain] [0] (2/5) (3/10) (1/4)
    (1/20) (1/2) 4 plain_all_below_half

/-- C4 (amended): an embedding-collaborator failure is recovered locally by
the blanket `try/except` inside `recommend_advanced`: the call returns
`None`, the very value produced by a legitimate below-threshold run, rather
than propagating a distinct error. -/
theorem C4_failure_swallowed (sorter : SortFn) (cm : CloseMatchFn) (q : String)
    (rows : List Row) (s : List ℚ) (wt wm ws we th : ℚ) (k : ℕ) (msg : String)
    (h : ∀ e ∈ scoreAll cm q rows s wt wm ws we, e.final_score < th) :
    recommend_advanced sorter cm q (some rows) (some ()) (some ()) (.error msg)
        wt wm ws we th k = none ∧
    recommend_advanced sorter cm q (some rows) (some ()) (some ()) (.error msg)
        wt wm ws we th k =
      recommend_advanced sorter cm q (some rows) (some ()) (some ()) (.ok s)
        wt wm ws we th k := by
  refine ⟨rfl, ?_⟩
  rw [recommend_below_threshold sorter cm q rows s wt wm ws we th k h]
  rfl

/-- C4 witness. -/
theorem C4_witness :
    (recommend_advanced sortId cmNone "abc" (some [rowPlain]) (some ()) (some ())
        (.error "encode raised") (2/5) (3/10) (1/4) (1/20) (1/2) 3 = none ∧
     recommend_advanced sortId cmNone "abc" (some [rowPlain]) (some ()) (some ())
        (.error "encode raised") (2/5) (3/10) (1/4) (1/20) (1/2) 3 =
       recommend_advanced sortId cmNone "abc" (some [rowPlain]) (some ()) (some ())
        (.ok [0]) (2/5) (3/10) (1/4) (1/20) (1/2) 3) :=
  C4_failure_swallowed sortId cmNone "abc" [rowPlain] [0] (2/5) (3/10) (1/4) (1/20) (1/2) 3
    "encode raised" plain_all_below_half

/-! # Claims C7 and C9: the module-list parser -/

theorem head?_dropWhile_false (p : Char → Bool) (l : List Char) (c : Char)
    (h : (l.dropWhile p).head? = some c) : p c = false := by
  have hw := List.head?_dropWhile_not p l
  rw [h] at hw
  exact hw

theorem pyStrip_prefix (p : Char → Bool) (l : List Char) :
    pyStrip p l <+: l.dropWhile p := by
  unfold pyStrip
  have hs : (l.dropWhile p).reverse.dropWhile p <:+ (l.dropWhile p).reverse :=
    List.dropWhile_suffix p
  have := List.reverse_prefix.mpr hs
  rwa [List.reverse_reverse] at this

theorem pyStrip_head_false (p : Char → Bool) (l : List Char) (c : Char)
    (h : (pyStrip p l).head? = some c) : p c = false := by
  obtain ⟨t, ht⟩ := pyStrip_prefix p l
  have hne : pyStrip p l ≠ [] := by
    intro hnil; rw [hnil] at h; exact Option.noConfusion h
  have : (l.dropWhile p).head? = some c := by
    rw [← ht, List.head?_append, h]
    rfl
  exact head?_dropWhile_false p l c this

theorem pyStrip_getLast_false (p : Char → Bool) (l : List Char) (c : Char)
    (h : (pyStrip p l).getLast? = some c) : p c = false := by
  unfold pyStrip at h
  rw [List.getLast?_reverse] at h
  exact head?_dropWhile_false p (l.dropWhile p).reverse c h

theorem mem_pyStrip (p : Char → Bool) (l : List Char) (c : Char)
    (h : c ∈ pyStrip p l) : c ∈ l := by
  unfold pyStrip at h
  rw [List.mem_reverse] at h
  have h1 := (List.dropWhile_sublist (l := (l.dropWhile p).reverse) p).subset h
  rw [List.mem_reverse] at h1
  exact (List.dropWhile_sublist p).subset h1

theorem dropWhile_eq_self_of_head (p : Char → Bool) (l : List Char)
    (h : ∀ c, l.head? = some c → p c = false) : l.dropWhile p = l := by
  cases l with
  | nil => rfl
  | cons a t =>
    have := h a rfl
    exact List.dropWhile_cons_of_neg (by simp [this])

theorem pyStrip_eq_self (p : Char → Bool) (l : List Char)
    (hh : ∀ c, l.head? = some c → p c = false)
    (hl : ∀ c, l.getLast? = some c → p c = false) : pyStrip p l = l := by
  unfold pyStrip
  rw [dropWhile_eq_self_of_head p l hh]
  rw [dropWhile_eq_self_of_head p l.reverse (fun c hc => by
    rw [List.head?_reverse] at hc
    exact hl c hc)]
  exact List.reverse_reverse l

theorem pyStrip_cons_of_pos (p : Char → Bool) (a : Char) (m : List Char)
    (h : p a = true) : pyStrip p (a :: m) = pyStrip p m := by
  unfold pyStrip
  rw [List.dropWhile_cons_of_pos h]

theorem pySplit_ne_nil (sep : Char) (l : List Char) : pySplit sep l ≠ [] := by
  cases l with
  | nil => simp [pySplit]
  | cons c cs =>
    cases h : pySplit sep cs with
    | nil => simp [pySplit, h]
    | cons t ts =>
      simp only [pySplit, h]
      split <;> simp

theorem mem_pySplit_no_sep (sep : Char) :
    ∀ (l : List Char) (m : List Char), m ∈ pySplit sep l → sep ∉ m := by
  intro l
  induction l with
  | nil =>
    intro m hm
    simp only [pySplit, List.mem_singleton] at hm
    subst hm; simp
  | cons c cs ih =>
    intro m hm
    cases hr : pySplit sep cs with
    | nil => exact absurd hr (pySplit_ne_nil sep cs)
    | cons t ts =>
      simp only [pySplit, hr] at hm
      by_cases hc : c = sep
      · rw [if_pos hc, List.mem_cons] at hm
        rcases hm with rfl | hm
        · simp
        · exact ih m (hr ▸ hm)
      · rw [if_neg hc, List.mem_cons] at hm
        rcases hm with rfl | hm
        · intro hmem
          rw [List.mem_cons] at hmem
          rcases hmem with hmem | hmem
          · exact hc hmem.symm
          · exact ih t (hr ▸ List.mem_cons_self t ts) hmem
        · exact ih m (hr ▸ List.mem_cons_of_mem t hm)

theorem mem_pySplit_subset (sep : Char) :
    ∀ (l : List Char) (m : List Char), m ∈ pySplit sep l → ∀ c ∈ m, c ∈ l := by
  intro l
  induction l with
  | nil =>
    intro m hm
    simp only [pySplit, List.mem_singleton] at hm
    subst hm; simp
  | cons a cs ih =>
    intro m hm c hc
    cases hr : pySplit sep cs with
    | nil => exact absurd hr (pySplit_ne_nil sep cs)
    | cons t ts =>
      simp only [pySplit, hr] at hm
      by_cases ha : a = sep
      · rw [if_pos ha, List.mem_cons] at hm
        rcases hm with rfl | hm
        · simp at hc
        · exact List.mem_cons_of_mem a (ih m (hr ▸ hm) c hc)
      · rw [if_neg ha, List.mem_cons] at hm
        rcases hm with rfl | hm
        · rw [List.mem_cons] at hc
          rcases hc with rfl | hc
          · exact List.mem_cons_self c cs
          · exact List.mem_cons_of_mem a
              (ih t (hr ▸ List.mem_cons_self t ts) c hc)
        · exact List.mem_cons_of_mem a (ih m (hr ▸ List.mem_cons_of_mem t hm) c hc)

theorem pySplit_not_mem_eq (sep : Char) :
    ∀ (l : List Char), sep ∉ l → pySplit sep l = [l] := by
  intro l
  induction l with
  | nil => intro _; rfl
  | cons c cs ih =>
    intro h
    have hc : c ≠ sep := fun hcs => h (hcs ▸ List.mem_cons_self c cs)
    have hcs : sep ∉ cs := fun hmem => h (List.mem_cons_of_mem c hmem)
    rw [pySplit, ih hcs]
    simp [hc]

theorem pySplit_append_sep (sep : Char) :
    ∀ (m rest : List Char), sep ∉ m →
      pySplit sep (m ++ sep :: rest) = m :: pySplit sep rest := by
  intro m
  induction m with
  | nil =>
    intro rest _
    cases hr : pySplit sep rest with
    | nil => exact absurd hr (pySplit_ne_nil sep rest)
    | cons t ts => simp [pySplit, hr]
  | cons a m' ih =>
    intro rest h
    have ha : a ≠ sep := fun has => h (has ▸ List.mem_cons_self a m')
    have hm' : sep ∉ m' := fun hmem => h (List.mem_cons_of_mem a hmem)
    rw [List.cons_append, pySplit, ih rest hm']
    simp [ha]

theorem joinComma_cons_cons (m m' : List Char) (ms : List (List Char)) :
    joinComma (m :: m' :: ms) = m ++ ',' :: ' ' :: joinComma (m' :: ms) := rfl

theorem joinComma_ne_nil (m : List Char) (ms : List (List Char)) (hm : m ≠ []) :
    joinComma (m :: ms) ≠ [] := by
  cases ms with
  | nil => exact hm
  | cons m' ms' =>
    rw [joinComma_cons_cons]
    simp

theorem head?_joinComma (m : List Char) (ms : List (List Char)) (hm : m ≠ []) :
    (joinComma (m :: ms)).head? = m.head? := by
  cases ms with
  | nil => rfl
  | cons m' ms' =>
    rw [joinComma_cons_cons, List.head?_append]
    cases m with
    | nil => exact absurd rfl hm
    | cons a t => rfl

theorem getLast?_joinComma :
    ∀ (ms : List (List Char)) (m : List Char), m ≠ [] → (∀ x ∈ ms, x ≠ []) →
      (joinComma (m :: ms)).getLast? = ((m :: ms).getLast (List.cons_ne_nil m ms)).getLast? := by
  intro ms
  induction ms with
  | nil =>
    intro m _ _
    simp [joinComma]
  | cons m' ms' ih =>
    intro m hm hms
    have hm' : m' ≠ [] := hms m' (List.mem_cons_self m' ms')
    have hms' : ∀ x ∈ ms', x ≠ [] := fun x hx => hms x (List.mem_cons_of_mem m' hx)
    have hj : joinComma (m' :: ms') ≠ [] := joinComma_ne_nil m' ms' hm'
    rw [joinComma_cons_cons, List.getLast?_append]
    have h1 : (',' :: ' ' :: joinComma (m' :: ms')).getLast? =
        (joinComma (m' :: ms')).getLast? := by
      rw [List.getLast?_cons_cons]
      cases hcase : joinComma (m' :: ms') with
      | nil => exact absurd hcase hj
      | cons a t => rw [List.getLast?_cons_cons]
    rw [h1, ih m' hm' hms']
    have hlast : ((m' :: ms').getLast (List.cons_ne_nil m' ms')).getLast? =
        ((m :: m' :: ms').getLast (List.cons_ne_nil m (m' :: ms'))).getLast? := by
      rw [List.getLast_cons (List.cons_ne_nil m' ms')]
    rw [hlast]
    have hlast_ne : ((m :: m' :: ms').getLast (List.cons_ne_nil m (m' :: ms'))) ≠ [] := by
      have hmem := List.getLast_mem (List.cons_ne_nil m (m' :: ms'))
      rw [List.mem_cons] at hmem
      rcases hmem with heq | hmem
      · rw [heq]; exact hm
      · exact hms _ hmem
    obtain ⟨y, hy⟩ : ∃ y, ((m :: m' :: ms').getLast
        (List.cons_ne_nil m (m' :: ms'))).getLast? = some y := by
      cases hcase : ((m :: m' :: ms').getLast (List.cons_ne_nil m (m' :: ms'))).getLast? with
      | none => exact absurd (List.getLast?_eq_none_iff.mp hcase) hlast_ne
      | some y => exact ⟨y, rfl⟩
    rw [hy]
    rfl

theorem mem_joinComma :
    ∀ (L : List (List Char)) (c : Char), c ∈ joinComma L →
      c = ',' ∨ c = ' ' ∨ ∃ m ∈ L, c ∈ m := by
  intro L
  induction L with
  | nil => intro c hc; simp [joinComma] at hc
  | cons m ms ih =>
    intro c hc
    cases ms with
    | nil =>
      right; right
      exact ⟨m, List.mem_cons_self m [], hc⟩
    | cons m' ms' =>
      rw [joinComma_cons_cons, List.mem_append] at hc
      rcases hc with hc | hc
      · exact Or.inr (Or.inr ⟨m, List.mem_cons_self m _, hc⟩)
      · rw [List.mem_cons] at hc
        rcases hc with rfl | hc
        · exact Or.inl rfl
        rw [List.mem_cons] at hc
        rcases hc with rfl | hc
        · exact Or.inr (Or.inl rfl)
        · rcases ih c hc with h | h | ⟨x, hx, hcx⟩
          · exact Or.inl h
          · exact Or.inr (Or.inl h)
          · exact Or.inr (Or.inr ⟨x, List.mem_cons_of_mem m hx, hcx⟩)

/-- The split of a comma-space join recovers the entries, each tail entry
prefixed with the separator's space. -/
theorem pySplit_joinComma :
    ∀ (ms : List (List Char)) (m : List Char), ',' ∉ m → (∀ x ∈ ms, ',' ∉ x) →
      pySplit ',' (joinComma (m :: ms)) = m :: ms.map (fun x => ' ' :: x) := by
  intro ms
  induction ms with
  | nil =>
    intro m hm _
    simp [joinComma, pySplit_not_mem_eq ',' m hm]
  | cons m' ms' ih =>
    intro m hm hms
    rw [joinComma_cons_cons, pySplit_append_sep ',' m _ hm]
    have hih := ih m' (hms m' (List.mem_cons_self m' ms'))
      (fun x hx => hms x (List.mem_cons_of_mem m' hx))
    have hstep : pySplit ',' (' ' :: joinComma (m' :: ms')) =
        (' ' :: m') :: ms'.map (fun x => ' ' :: x) := by
      rw [pySplit, hih]
      simp
    rw [hstep, List.map_cons]

/-- Invariants of every entry produced by the parser core: nonempty, no
whitespace at either end, and free of commas and quote characters. -/
theorem parseModulesL_facts (cs : List Char) (m : List Char) (hm : m ∈ parseModulesL cs) :
    m ≠ [] ∧
    (∀ c, m.head? = some c → c.isWhitespace = false) ∧
    (∀ c, m.getLast? = some c → c.isWhitespace = false) ∧
    ',' ∉ m ∧ dquote ∉ m ∧ squote ∉ m := by
  simp only [parseModulesL] at hm
  split at hm
  · simp at hm
  · rw [List.mem_filter] at hm
    obtain ⟨hm1, hne⟩ := hm
    rw [List.mem_map] at hm1
    obtain ⟨piece, hpiece, rfl⟩ := hm1
    refine ⟨of_decide_eq_true hne, ?_, ?_, ?_, ?_, ?_⟩
    · exact fun c hc => pyStrip_head_false _ _ c hc
    · exact fun c hc => pyStrip_getLast_false _ _ c hc
    · intro hmem
      exact mem_pySplit_no_sep ',' _ piece hpiece (mem_pyStrip _ _ _ hmem)
    · intro hmem
      have h1 := mem_pySplit_subset ',' _ piece hpiece dquote (mem_pyStrip _ _ _ hmem)
      unfold pyEraseChar at h1
      rw [List.mem_filter] at h1
      obtain ⟨h2, _⟩ := h1
      rw [List.mem_filter] at h2
      exact absurd rfl (of_decide_eq_true h2.2)
    · intro hmem
      have h1 := mem_pySplit_subset ',' _ piece hpiece squote (mem_pyStrip _ _ _ hmem)
      unfold pyEraseChar at h1
      rw [List.mem_filter] at h1
      exact absurd rfl (of_decide_eq_true h1.2)

/-- Re-parsing the comma-space join of a clean entry list is the identity,
provided no entry begins or ends with a brace character. -/
theorem parseModulesL_joinComma (L : List (List Char))
    (hne : ∀ m ∈ L, m ≠ [])
    (hhead : ∀ m ∈ L, ∀ c, m.head? = some c → c.isWhitespace = false)
    (hlast : ∀ m ∈ L, ∀ c, m.getLast? = some c → c.isWhitespace = false)
    (hcomma : ∀ m ∈ L, ',' ∉ m)
    (hq1 : ∀ m ∈ L, dquote ∉ m)
    (hq2 : ∀ m ∈ L, squote ∉ m)
    (hBrH : ∀ m ∈ L, ∀ c, m.head? = some c → isBraceChar c = false)
    (hBrL : ∀ m ∈ L, ∀ c, m.getLast? = some c → isBraceChar c = false) :
    parseModulesL (joinComma L) = L := by
  cases L with
  | nil => rfl
  | cons m ms =>
    have hm_ne : m ≠ [] := hne m (List.mem_cons_self m ms)
    have hms_ne : ∀ x ∈ ms, x ≠ [] := fun x hx => hne x (List.mem_cons_of_mem m hx)
    have hj_ne : joinComma (m :: ms) ≠ [] := joinComma_ne_nil m ms hm_ne
    have hstrip : pyStrip isBraceChar (joinComma (m :: ms)) = joinComma (m :: ms) := by
      apply pyStrip_eq_self
      · intro c hc
        rw [head?_joinComma m ms hm_ne] at hc
        exact hBrH m (List.mem_cons_self m ms) c hc
      · intro c hc
        rw [getLast?_joinComma ms m hm_ne hms_ne] at hc
        exact hBrL _ (List.getLast_mem (List.cons_ne_nil m ms)) c hc
    have hinner : pyEraseChar dquote (joinComma (m :: ms)) = joinComma (m :: ms) := by
      apply List.filter_eq_self.mpr
      intro c hcmem
      apply decide_eq_true
      rcases mem_joinComma _ c hcmem with rfl | rfl | ⟨x, hx, hcx⟩
      · decide
      · decide
      · exact fun hcq => hq1 x hx (hcq ▸ hcx)
    have herase : pyEraseChar squote (pyEraseChar dquote (joinComma (m :: ms))) =
        joinComma (m :: ms) := by
      rw [hinner]
      apply List.filter_eq_self.mpr
      intro c hcmem
      apply decide_eq_true
      rcases mem_joinComma _ c hcmem with rfl | rfl | ⟨x, hx, hcx⟩
      · decide
      · decide
      · exact fun hcq => hq2 x hx (hcq ▸ hcx)
    simp only [parseModulesL]
    rw [hstrip, herase, if_neg hj_ne]
    rw [pySplit_joinComma ms m (hcomma m (List.mem_cons_self m ms))
      (fun x hx => hcomma x (List.mem_cons_of_mem m hx))]
    have hmap : ((m :: ms.map (fun x => ' ' :: x)).map (pyStrip Char.isWhitespace))
        = m :: ms := by
      rw [List.map_cons]
      congr 1
      · exact pyStrip_eq_self _ m (hhead m (List.mem_cons_self m ms))
          (hlast m (List.mem_cons_self m ms))
      · rw [List.map_map]
        conv_rhs => rw [← List.map_id ms]
        apply List.map_congr_left
        intro x hx
        have hxm := List.mem_cons_of_mem m hx
        show pyStrip Char.isWhitespace (' ' :: x) = x
        rw [pyStrip_cons_of_pos _ ' ' x (by decide)]
        exact pyStrip_eq_self _ x (hhead x hxm) (hlast x hxm)
    rw [hmap]
    apply List.filter_eq_self.mpr
    intro x hx
    exact decide_eq_true (hne x hx)

theorem parse_some_eq (s : String) :
    parse_compatible_modules (some s) = (parseModulesL s.toList).map String.mk := by
  simp only [parse_compatible_modules]
  split
  · next h => subst h; rfl
  · rfl

theorem render_mk (L : List (List Char)) :
    renderModules (L.map String.mk) = String.mk (joinComma L) := by
  unfold renderModules
  rw [List.map_map]
  rw [show String.toList ∘ String.mk = id from rfl, List.map_id]

theorem optAll_not_of (p : Char → Bool) (o : Option Char)
    (h : o.all (fun c => !p c) = true) : ∀ c, o = some c → p c = false := by
  intro c hc
  cases o with
  | none => exact Option.noConfusion hc
  | some a =>
    have ha : a = c := Option.some.inj hc
    subst ha
    simpa [Option.all] using h

/-- C7 counterexample: the input `" {y, x"` parses to `["{y", "x"]` (the
leading brace survives because `strip('{}')` only strips at the string's
ends, and the interior `{` is protected by the leading space); re-parsing
the rendered output strips that brace, so re-parsing is not a no-op. -/
theorem C7_counterexample :
    parse_compatible_modules (some (renderModules
      (parse_compatible_modules (some " \x7by, x")))) ≠
    parse_compatible_modules (some " \x7by, x") := by decide

/-- C7 (amended): `parse_compatible_modules` maps `"{A, B, 'C'}"` to
`["A","B","C"]`, the empty string to `[]` and `None` to `[]`; it is a total
function; and re-parsing the rendered (comma-space joined) output is a
no-op for every input whose parsed entries neither begin nor end with a
brace character. -/
theorem C7_parse_contract :
    parse_compatible_modules (some "\x7bA, B, 'C'\x7d") = ["A", "B", "C"] ∧
    parse_compatible_modules (some "") = [] ∧
    parse_compatible_modules none = [] ∧
    ∀ s : String,
      (∀ m ∈ parseModulesL s.toList,
        (m.head?.all (fun c => !isBraceChar c)) = true ∧
        (m.getLast?.all (fun c => !isBraceChar c)) = true) →
      parse_compatible_modules (some (renderModules (parse_compatible_modules (some s)))) =
        parse_compatible_modules (some s) := by
  refine ⟨by decide, rfl, rfl, ?_⟩
  intro s hBr
  rw [parse_some_eq s, render_mk, parse_some_eq]
  congr 1
  exact parseModulesL_joinComma (parseModulesL s.toList)
    (fun m hm => (parseModulesL_facts s.toList m hm).1)
    (fun m hm => (parseModulesL_facts s.toList m hm).2.1)
    (fun m hm => (parseModulesL_facts s.toList m hm).2.2.1)
    (fun m hm => (parseModulesL_facts s.toList m hm).2.2.2.1)
    (fun m hm => (parseModulesL_facts s.toList m hm).2.2.2.2.1)
    (fun m hm => (parseModulesL_facts s.toList m hm).2.2.2.2.2)
    (fun m hm => optAll_not_of isBraceChar m.head? (hBr m hm).1)
    (fun m hm => optAll_not_of isBraceChar m.getLast? (hBr m hm).2)

/-- C7 witness: on the spec's own example the re-parse really is a no-op. -/
theorem C7_witness :
    parse_compatible_modules (some (renderModules
      (parse_compatible_modules (some "\x7bA, B, 'C'\x7d")))) =
    parse_compatible_modules (some "\x7bA, B, 'C'\x7d") :=
  C7_parse_contract.2.2.2 "\x7bA, B, 'C'\x7d" (by decide)

/-- C9: no parsed module entry is empty or whitespace-only, for every raw
input (including `None`). -/
theorem C9_no_blank_entries (ms : Option String) (m : String)
    (hm : m ∈ parse_compatible_modules ms) :
    m ≠ "" ∧ (m.toList.all (fun c => c.isWhitespace)) = false := by
  cases ms with
  | none => simp [parse_compatible_modules] at hm
  | some s =>
    rw [parse_some_eq] at hm
    rw [List.mem_map] at hm
    obtain ⟨x, hx, rfl⟩ := hm
    obtain ⟨hne, hhead, -, -, -, -⟩ := parseModulesL_facts s.toList x hx
    constructor
    · intro hcontra
      apply hne
      have := congrArg String.data hcontra
      simpa using this
    · cases hxc : x with
      | nil => exact absurd hxc hne
      | cons a t =>
        have ha := hhead a (by rw [hxc]; rfl)
        show ((a :: t).all fun c => c.isWhitespace) = false
        simp [ha]

/-- C9 witness. -/
theorem C9_witness :
    ("A" : String) ∈ parse_compatible_modules (some "\x7bA, B, 'C'\x7d") ∧
    ("A" ≠ "" ∧ ((("A" : String).toList.all (fun c => c.isWhitespace)) = false)) :=
  ⟨by decide, C9_no_blank_entries (some "\x7bA, B, 'C'\x7d") "A" (by decide)⟩

end SensorRec
